import Mathlib

/-!
Shallow embedding of `supabase/functions/ai-report/index.ts`: five provider
adapters (OpenAI, OpenRouter, Gemini, HuggingFace, Replicate), a fallback
sequencer, and the HTTP request boundary.  Network I/O is modelled by
oracles: each adapter receives a function from its request payload to the
HTTP result the network would produce, and the Replicate adapter
additionally receives the sequence of poll responses.
-/

namespace AiReport

/-- JSON values as delivered by `res.json()` / built by `JSON.stringify`.
Numbers are rationals (the source only uses the literal `0.2` and whatever
the mocked responses carry). -/
inductive Json where
  | null
  | bool (b : Bool)
  | num (q : Rat)
  | str (s : String)
  | arr (elems : List Json)
  | obj (fields : List (String × Json))

def Json.isNull : Json → Bool
  | Json.null => true
  | _ => false

/-- Decimal rendering of the fractional part of a JS number (terminating
decimals render exactly; others are truncated at 17 digits, which is enough
for every number the modelled code manipulates). -/
def fracDigits : Rat → Nat → String
  | _, 0 => ""
  | f, k + 1 =>
    if f = 0 then ""
    else
      let f10 := f * 10
      let d : Int := ⌊f10⌋
      toString d ++ fracDigits (f10 - (d : Rat)) k

/-- JS `Number.prototype.toString` for the numbers this code meets. -/
def jsNumToString (q : Rat) : String :=
  if q.den = 1 then toString q.num
  else
    let sign := if q < 0 then "-" else ""
    let a := |q|
    let ip : Int := ⌊a⌋
    sign ++ toString ip ++ "." ++ fracDigits (a - (ip : Rat)) 17

mutual

/-- JS `String(v)` / `v.toString()` for a non-nullish value. -/
def jsToString : Json → String
  | Json.null => "null"
  | Json.bool b => cond b "true" "false"
  | Json.num q => jsNumToString q
  | Json.str s => s
  | Json.arr xs => jsToStringList xs
  | Json.obj _ => "[object Object]"

/-- JS `Array.prototype.toString` = `join(",")`, null elements render as
the empty string. -/
def jsToStringList : List Json → String
  | [] => ""
  | x :: rest =>
    let hd := cond (Json.isNull x) "" (jsToString x)
    match rest with
    | [] => hd
    | _ => hd ++ "," ++ jsToStringList rest

end

def hexDigit (n : Nat) : Char :=
  if n < 10 then Char.ofNat (48 + n) else Char.ofNat (87 + n)

/-- The escaping `JSON.stringify` applies inside string values: quote,
backslash, the named control escapes, and `\u00xx` for the remaining
control characters. -/
def escapeJsonChar (c : Char) : String :=
  if c = '"' then "\\\""
  else if c = '\\' then "\\\\"
  else if c = '\n' then "\\n"
  else if c = '\t' then "\\t"
  else if c = '\r' then "\\r"
  else if c = '\x08' then "\\b"
  else if c = '\x0c' then "\\f"
  else if c.toNat < 32 then
    "\\u00" ++ String.mk [hexDigit (c.toNat / 16), hexDigit (c.toNat % 16)]
  else c.toString

def escapeJsonChars : List Char → String
  | [] => ""
  | c :: rest => escapeJsonChar c ++ escapeJsonChars rest

def escapeJson (s : String) : String :=
  escapeJsonChars s.data

def quoteJson (s : String) : String :=
  "\"" ++ escapeJson s ++ "\""

mutual

/-- JS `JSON.stringify`. -/
def jsonStringify : Json → String
  | Json.null => "null"
  | Json.bool b => cond b "true" "false"
  | Json.num q => jsNumToString q
  | Json.str s => quoteJson s
  | Json.arr xs => "[" ++ stringifyArr xs ++ "]"
  | Json.obj fs => "\x7b" ++ stringifyObj fs ++ "\x7d"

def stringifyArr : List Json → String
  | [] => ""
  | x :: rest =>
    match rest with
    | [] => jsonStringify x
    | _ => jsonStringify x ++ "," ++ stringifyArr rest

def stringifyObj : List (String × Json) → String
  | [] => ""
  | (k, v) :: rest =>
    match rest with
    | [] => quoteJson k ++ ":" ++ jsonStringify v
    | _ => quoteJson k ++ ":" ++ jsonStringify v ++ "," ++ stringifyObj rest

end

mutual

/-- Whether the string `s` occurs as a `Json.str` leaf anywhere in the value. -/
def Json.containsStr (s : String) : Json → Bool
  | Json.str t => t == s
  | Json.arr xs => containsStrList s xs
  | Json.obj fs => containsStrFields s fs
  | _ => false

def containsStrList (s : String) : List Json → Bool
  | [] => false
  | x :: rest => Json.containsStr s x || containsStrList s rest

def containsStrFields (s : String) : List (String × Json) → Bool
  | [] => false
  | (_, v) :: rest => Json.containsStr s v || containsStrFields s rest

end

def lookupField : List (String × Json) → String → Option Json
  | [], _ => none
  | (k, v) :: rest, key => if k == key then some v else lookupField rest key

/-- A JSON `null` behaves like `undefined` under the optional chains and
falsiness checks the source uses, so property access normalises it away. -/
def normalizeNull : Option Json → Option Json
  | some Json.null => none
  | o => o

/-- JS optional property access `v?.k` (on a missing value, a non-object, or
`null` it yields `undefined`, i.e. `none`). -/
def jsGet (v : Option Json) (key : String) : Option Json :=
  match v with
  | some (Json.obj fs) => normalizeNull (lookupField fs key)
  | _ => none

/-- JS optional index access `v?.[i]`: array element, string character, or
the numeric-keyed property of an object. -/
def jsIdx (v : Option Json) (i : Nat) : Option Json :=
  match v with
  | some (Json.arr xs) => normalizeNull (xs.get? i)
  | some (Json.str s) => (s.toList.get? i).map (fun c => Json.str c.toString)
  | some (Json.obj fs) => normalizeNull (lookupField fs (toString i))
  | _ => none

/-- JS plain property access `v.k`, which throws a `TypeError` when `v` is
`null` (the only nullish value `res.json()` can produce). -/
def jsGetStrict (v : Json) (key : String) : Except String (Option Json) :=
  match v with
  | Json.null =>
    Except.error ("TypeError: Cannot read properties of null (reading \x27" ++ key ++ "\x27)")
  | Json.obj fs => Except.ok (normalizeNull (lookupField fs key))
  | _ => Except.ok none

/-- JS truthiness of a value. -/
def jsTruthy : Json → Bool
  | Json.null => false
  | Json.bool b => b
  | Json.num q => !(q == 0)
  | Json.str s => !(s == "")
  | Json.arr _ => true
  | Json.obj _ => true

def jsTruthyOpt : Option Json → Bool
  | none => false
  | some v => jsTruthy v

def jsFalsyOpt (o : Option Json) : Bool := !(jsTruthyOpt o)

/-- JS `Array.prototype.join(sep)`: null elements become empty strings. -/
def jsJoin (xs : List Json) (sep : String) : String :=
  String.intercalate sep (xs.map fun v => cond (Json.isNull v) "" (jsToString v))

/-- The result of one `fetch`: either the promise rejects (the rendered
`String(error)` of the fault), or a response arrives with a status code and
a body whose `res.json()` either parses or throws. -/
inductive HttpResult where
  | netError (msg : String)
  | response (status : Nat) (body : Except String Json)

/-- `res.ok`: status in the 2xx range. -/
def httpOk (status : Nat) : Bool := 200 ≤ status && status < 300

/-- Uniform adapter outcome: `{ ok: true, provider, text }` or
`{ ok: false, provider, error }`.  The text is kept as a JSON value because
the HuggingFace extraction can assign a raw (possibly non-string) value. -/
inductive ProviderOutcome where
  | success (provider : String) (text : Json)
  | failure (provider : String) (error : String)

def ProviderOutcome.providerId : ProviderOutcome → String
  | ProviderOutcome.success p _ => p
  | ProviderOutcome.failure p _ => p

def ProviderOutcome.isFailure : ProviderOutcome → Bool
  | ProviderOutcome.success _ _ => false
  | ProviderOutcome.failure _ _ => true

/-- `Deno.env.get`. -/
def EnvMap := String → Option String

/-- A missing or empty credential fails the `if (!KEY)` guard. -/
def credFalsy : Option String → Bool
  | none => true
  | some s => s == ""

def systemInstruction : String :=
  "You are an expert analyst that produces concise, actionable reports."

def openAIEndpoint : String := "https://api.openai.com/v1/chat/completions"

def openRouterEndpoint : String := "https://openrouter.ai/api/v1/chat/completions"

def geminiEndpoint (key : String) : String :=
  "https://generativelanguage.googleapis.com/v1beta/models/gemini-1.5-flash:generateContent?key=" ++ key

def hfModel : String := "mistralai/Mixtral-8x7B-Instruct-v0.1"

def hfEndpoint : String := "https://api-inference.huggingface.co/models/" ++ hfModel

def replicateEndpoint : String :=
  "https://api.replicate.com/v1/models/meta/meta-llama-3-8b-instruct/predictions"

def openAIRequestBody (prompt : String) : Json :=
  Json.obj [
    ("model", Json.str "gpt-4.1-2025-04-14"),
    ("messages", Json.arr [
      Json.obj [("role", Json.str "system"), ("content", Json.str systemInstruction)],
      Json.obj [("role", Json.str "user"), ("content", Json.str prompt)]]),
    ("temperature", Json.num (1 / 5))]

def openRouterRequestBody (prompt : String) : Json :=
  Json.obj [
    ("model", Json.str "openai/gpt-4o-mini"),
    ("messages", Json.arr [
      Json.obj [("role", Json.str "system"), ("content", Json.str systemInstruction)],
      Json.obj [("role", Json.str "user"), ("content", Json.str prompt)]]),
    ("temperature", Json.num (1 / 5))]

def geminiRequestBody (prompt : String) : Json :=
  Json.obj [
    ("contents", Json.arr [
      Json.obj [
        ("role", Json.str "user"),
        ("parts", Json.arr [Json.obj [("text", Json.str prompt)]])]])]

def hfRequestBody (prompt : String) : Json :=
  Json.obj [
    ("inputs", Json.str prompt),
    ("options", Json.obj [("wait_for_model", Json.bool true)])]

def replicateRequestBody (prompt : String) : Json :=
  Json.obj [("input", Json.obj [("prompt", Json.str prompt)])]

/-- `data?.choices?.[0]?.message?.content?.toString()` (OpenAI and
OpenRouter share this shape). -/
def chatCompletionText (data : Json) : Option String :=
  (jsGet (jsGet (jsIdx (jsGet (some data) "choices") 0) "message") "content").map jsToString

/-- `data?.candidates?.[0]?.content?.parts?.[0]?.text?.toString()`. -/
def geminiText (data : Json) : Option String :=
  (jsGet (jsIdx (jsGet (jsGet (jsIdx (jsGet (some data) "candidates") 0) "content") "parts") 0)
    "text").map jsToString

/-- `!text` on an optionally-extracted string. -/
def optTextFalsy : Option String → Bool
  | none => true
  | some s => s == ""

/-- Body of `tryOpenAI` past the credential check, with `throw` as
`Except.error` carrying the rendered `String(error)`. -/
def tryOpenAIBody (net : Json → HttpResult) (prompt : String) : Except String ProviderOutcome :=
  match net (openAIRequestBody prompt) with
  | HttpResult.netError msg => Except.error msg
  | HttpResult.response status body =>
    if httpOk status then
      match body with
      | Except.error e => Except.error e
      | Except.ok data =>
        match chatCompletionText data with
        | some t =>
          if t == "" then Except.error "Error: OpenAI empty response"
          else Except.ok (ProviderOutcome.success "openai" (Json.str t))
        | none => Except.error "Error: OpenAI empty response"
    else Except.error ("Error: OpenAI HTTP " ++ toString status)

def tryOpenAI (env : EnvMap) (net : Json → HttpResult) (prompt : String) :
    ProviderOutcome × Nat :=
  if credFalsy (env "OPENAI_API_KEY") then
    (ProviderOutcome.failure "openai" "OPENAI_API_KEY not set", 0)
  else
    match tryOpenAIBody net prompt with
    | Except.ok o => (o, 1)
    | Except.error e => (ProviderOutcome.failure "openai" e, 1)

def tryOpenRouterBody (net : Json → HttpResult) (prompt : String) :
    Except String ProviderOutcome :=
  match net (openRouterRequestBody prompt) with
  | HttpResult.netError msg => Except.error msg
  | HttpResult.response status body =>
    if httpOk status then
      match body with
      | Except.error e => Except.error e
      | Except.ok data =>
        match chatCompletionText data with
        | some t =>
          if t == "" then Except.error "Error: OpenRouter empty response"
          else Except.ok (ProviderOutcome.success "openrouter" (Json.str t))
        | none => Except.error "Error: OpenRouter empty response"
    else Except.error ("Error: OpenRouter HTTP " ++ toString status)

def tryOpenRouter (env : EnvMap) (net : Json → HttpResult) (prompt : String) :
    ProviderOutcome × Nat :=
  if credFalsy (env "OPENROUTER_API_KEY") then
    (ProviderOutcome.failure "openrouter" "OPENROUTER_API_KEY not set", 0)
  else
    match tryOpenRouterBody net prompt with
    | Except.ok o => (o, 1)
    | Except.error e => (ProviderOutcome.failure "openrouter" e, 1)

def tryGeminiBody (net : Json → HttpResult) (prompt : String) : Except String ProviderOutcome :=
  match net (geminiRequestBody prompt) with
  | HttpResult.netError msg => Except.error msg
  | HttpResult.response status body =>
    if httpOk status then
      match body with
      | Except.error e => Except.error e
      | Except.ok data =>
        match geminiText data with
        | some t =>
          if t == "" then Except.error "Error: Gemini empty response"
          else Except.ok (ProviderOutcome.success "gemini" (Json.str t))
        | none => Except.error "Error: Gemini empty response"
    else Except.error ("Error: Gemini HTTP " ++ toString status)

def tryGemini (env : EnvMap) (net : Json → HttpResult) (prompt : String) :
    ProviderOutcome × Nat :=
  if credFalsy (env "GOOGLE_GEMINI_API_KEY") then
    (ProviderOutcome.failure "gemini" "GOOGLE_GEMINI_API_KEY not set", 0)
  else
    match tryGeminiBody net prompt with
    | Except.ok o => (o, 1)
    | Except.error e => (ProviderOutcome.failure "gemini" e, 1)

def Json.isArray : Json → Bool
  | Json.arr _ => true
  | _ => false

/-- `typeof data === "object"` (true for objects, arrays, and null). -/
def Json.typeofObject : Json → Bool
  | Json.obj _ => true
  | Json.arr _ => true
  | Json.null => true
  | _ => false

/-- The HuggingFace extraction if-chain: array `generated_text`, object
`generated_text`, array `summary_text`, else `JSON.stringify(data)`.  The
first three branches assign the raw field value. -/
def hfExtract (data : Json) : Json :=
  if data.isArray && jsTruthyOpt (jsGet (jsIdx (some data) 0) "generated_text") then
    (jsGet (jsIdx (some data) 0) "generated_text").getD Json.null
  else if data.typeofObject && jsTruthyOpt (jsGet (some data) "generated_text") then
    (jsGet (some data) "generated_text").getD Json.null
  else if data.isArray && jsTruthyOpt (jsGet (jsIdx (some data) 0) "summary_text") then
    (jsGet (jsIdx (some data) 0) "summary_text").getD Json.null
  else Json.str (jsonStringify data)

def tryHuggingFaceBody (net : Json → HttpResult) (prompt : String) :
    Except String ProviderOutcome :=
  match net (hfRequestBody prompt) with
  | HttpResult.netError msg => Except.error msg
  | HttpResult.response status body =>
    if httpOk status then
      match body with
      | Except.error e => Except.error e
      | Except.ok data =>
        let text := hfExtract data
        if jsTruthy text then Except.ok (ProviderOutcome.success "huggingface" text)
        else Except.error "Error: HuggingFace empty response"
    else Except.error ("Error: HuggingFace HTTP " ++ toString status)

def tryHuggingFace (env : EnvMap) (net : Json → HttpResult) (prompt : String) :
    ProviderOutcome × Nat :=
  if credFalsy (env "HUGGING_FACE_ACCESS_TOKEN") then
    (ProviderOutcome.failure "huggingface" "HUGGING_FACE_ACCESS_TOKEN not set", 0)
  else
    match tryHuggingFaceBody net prompt with
    | Except.ok o => (o, 1)
    | Except.error e => (ProviderOutcome.failure "huggingface" e, 1)

/-- `body.status === s` — strict string equality. -/
def isStatus (st : Option Json) (s : String) : Bool :=
  match st with
  | some (Json.str t) => t == s
  | _ => false

/-- `const text = Array.isArray(output) ? output.join("\n") : String(output ?? "")`. -/
def replicateOutputText (output : Option Json) : String :=
  match output with
  | some (Json.arr xs) => jsJoin xs "\n"
  | some v => jsToString v
  | none => ""

/-- The `for (let i = 0; i < 30; i++)` polling loop, started at index `i`.
Returns the result (`throw` as `Except.error`), the number of status reads
issued and the number of 1-second delays observed.  Note the source checks
`body.status` without inspecting `check.ok`, so any non-terminal body —
including an error body from a non-2xx read — falls through to the delay
and the next iteration. -/
def replicateLoop (polls : Nat → HttpResult) (i : Nat) :
    Except String ProviderOutcome × Nat × Nat :=
  if _h : i < 30 then
    match polls i with
    | HttpResult.netError msg => (Except.error msg, 1, 0)
    | HttpResult.response _ (Except.error e) => (Except.error e, 1, 0)
    | HttpResult.response _ (Except.ok b) =>
      match jsGetStrict b "status" with
      | Except.error e => (Except.error e, 1, 0)
      | Except.ok st =>
        if isStatus st "succeeded" then
          let text := replicateOutputText (jsGet (some b) "output")
          if text == "" then (Except.error "Error: Replicate empty output", 1, 0)
          else (Except.ok (ProviderOutcome.success "replicate" (Json.str text)), 1, 0)
        else if isStatus st "failed" then (Except.error "Error: Replicate failed", 1, 0)
        else if isStatus st "canceled" then (Except.error "Error: Replicate canceled", 1, 0)
        else
          let r := replicateLoop polls (i + 1)
          (r.1, r.2.1 + 1, r.2.2 + 1)
  else (Except.error "Error: Replicate timeout", 0, 0)
termination_by 30 - i
decreasing_by omega

/-- Body of `tryReplicate` past the credential check: submission call, then
the status-URL check, then the polling loop.  The two extra components are
(status reads, delays). -/
def tryReplicateBody (submitNet : Json → HttpResult) (polls : Nat → HttpResult)
    (prompt : String) : Except String ProviderOutcome × Nat × Nat :=
  match submitNet (replicateRequestBody prompt) with
  | HttpResult.netError msg => (Except.error msg, 0, 0)
  | HttpResult.response status body =>
    if httpOk status then
      match body with
      | Except.error e => (Except.error e, 0, 0)
      | Except.ok data =>
        let endpoint := jsGet (jsGet (some data) "urls") "get"
        if jsFalsyOpt endpoint then (Except.error "Error: Replicate missing status URL", 0, 0)
        else replicateLoop polls 0
    else (Except.error ("Error: Replicate HTTP " ++ toString status), 0, 0)

structure ReplicateRun where
  outcome : ProviderOutcome
  netCalls : Nat
  statusReads : Nat
  delays : Nat

def tryReplicate (env : EnvMap) (submitNet : Json → HttpResult)
    (polls : Nat → HttpResult) (prompt : String) : ReplicateRun :=
  if credFalsy (env "REPLICATE_API_KEY") then
    ⟨ProviderOutcome.failure "replicate" "REPLICATE_API_KEY not set", 0, 0, 0⟩
  else
    match tryReplicateBody submitNet polls prompt with
    | (Except.ok o, p, d) => ⟨o, p + 1, p, d⟩
    | (Except.error e, p, d) => ⟨ProviderOutcome.failure "replicate" e, p + 1, p, d⟩

/-- The network environment a single request sees: one oracle per
synchronous adapter, plus Replicate's submission oracle and poll sequence. -/
structure NetWorld where
  openaiNet : Json → HttpResult
  openrouterNet : Json → HttpResult
  geminiNet : Json → HttpResult
  hfNet : Json → HttpResult
  replicateSubmitNet : Json → HttpResult
  replicatePolls : Nat → HttpResult

/-- One entry of the `results` array: `{ provider, error }`. -/
structure Attempt where
  provider : String
  error : String

inductive FallbackResult where
  | success (provider : String) (text : Json)
  | allFailed (attempts : List Attempt)

/-- The `for (const attempt of attempts)` loop over already-determined
outcomes, accumulating the failure log.  The second component counts how
many adapters the loop invoked (the source calls each adapter lazily, so a
short-circuit return leaves the remaining adapters uninvoked). -/
def fallbackLoop : List ProviderOutcome → List Attempt → FallbackResult × Nat
  | [], acc => (FallbackResult.allFailed acc, 0)
  | o :: rest, acc =>
    match o with
    | ProviderOutcome.success p t => (FallbackResult.success p t, 1)
    | ProviderOutcome.failure p e =>
      let r := fallbackLoop rest (acc ++ [⟨p, e⟩])
      (r.1, r.2 + 1)

/-- The fixed adapter order of line 194:
`[tryOpenAI, tryOpenRouter, tryGemini, tryHuggingFace, tryReplicate]`. -/
def adapterSequence (env : EnvMap) (net : NetWorld) (prompt : String) :
    List ProviderOutcome :=
  [(tryOpenAI env net.openaiNet prompt).1,
   (tryOpenRouter env net.openrouterNet prompt).1,
   (tryGemini env net.geminiNet prompt).1,
   (tryHuggingFace env net.hfNet prompt).1,
   (tryReplicate env net.replicateSubmitNet net.replicatePolls prompt).outcome]

structure HttpResponse where
  status : Nat
  body : Option Json

def response400 : HttpResponse :=
  ⟨400, some (Json.obj [("error", Json.str "Missing \x27prompt\x27 string in body")])⟩

def response500 (details : String) : HttpResponse :=
  ⟨500, some (Json.obj [("error", Json.str "Unexpected error"), ("details", Json.str details)])⟩

def attemptToJson (a : Attempt) : Json :=
  Json.obj [("provider", Json.str a.provider), ("error", Json.str a.error)]

def response502 (atts : List Attempt) : HttpResponse :=
  ⟨502, some (Json.obj [
    ("error", Json.str "All providers failed"),
    ("attempts", Json.arr (atts.map attemptToJson))])⟩

def response200 (provider : String) (text : Json) : HttpResponse :=
  ⟨200, some (Json.obj [("provider", Json.str provider), ("text", text)])⟩

/-- `const { prompt } = data` — destructuring throws a `TypeError` when the
parsed body is `null`; on any other value it reads the `prompt` property
(`undefined` off non-objects). -/
def destructurePrompt : Json → Except String (Option Json)
  | Json.null =>
    Except.error
      "TypeError: Cannot destructure property \x27prompt\x27 of \x27(intermediate value)\x27 as it is null."
  | Json.obj fs => Except.ok (normalizeNull (lookupField fs "prompt"))
  | _ => Except.ok none

/-- The `serve` handler.  `bodyParse` is the result of `await req.json()`
(`Except.error` when the body is not JSON, carrying `String(error)`).  The
second component counts how many adapters were invoked. -/
def handle (method : String) (bodyParse : Except String Json) (env : EnvMap)
    (net : NetWorld) : HttpResponse × Nat :=
  if method == "OPTIONS" then (⟨200, none⟩, 0)
  else
    match bodyParse with
    | Except.error e => (response500 e, 0)
    | Except.ok bodyJson =>
      match destructurePrompt bodyJson with
      | Except.error e => (response500 e, 0)
      | Except.ok promptVal =>
        match promptVal with
        | some (Json.str s) =>
          if s == "" then (response400, 0)
          else
            match fallbackLoop (adapterSequence env net s) [] with
            | (FallbackResult.success p t, n) => (response200 p t, n)
            | (FallbackResult.allFailed atts, n) => (response502 atts, n)
        | _ => (response400, 0)

/-! ## Helper lemmas -/

/-- A poll response that parses but whose `status` is none of the three
terminal strings (the body itself must not be `null`, or `body.status`
would throw). -/
def nonTerminalPoll (r : HttpResult) : Prop :=
  ∃ st b v, r = HttpResult.response st (Except.ok b) ∧
    jsGetStrict b "status" = Except.ok v ∧
    isStatus v "succeeded" = false ∧ isStatus v "failed" = false ∧
    isStatus v "canceled" = false

theorem replicateLoop_step (polls : Nat → HttpResult) (i : Nat) (hi : i < 30)
    (hp : nonTerminalPoll (polls i)) :
    replicateLoop polls i =
      ((replicateLoop polls (i + 1)).1, (replicateLoop polls (i + 1)).2.1 + 1,
        (replicateLoop polls (i + 1)).2.2 + 1) := by
  obtain ⟨st, b, v, hr, hst, h1, h2, h3⟩ := hp
  rw [replicateLoop]
  rw [dif_pos hi, hr]
  simp [hst, h1, h2, h3]

theorem replicateLoop_exhausted (polls : Nat → HttpResult) (i : Nat) (hi : ¬ i < 30) :
    replicateLoop polls i = (Except.error "Error: Replicate timeout", 0, 0) := by
  rw [replicateLoop, dif_neg hi]

theorem replicateLoop_all_pending (polls : Nat → HttpResult) :
    ∀ (n i : Nat), i + n = 30 →
      (∀ j, i ≤ j → j < 30 → nonTerminalPoll (polls j)) →
      replicateLoop polls i = (Except.error "Error: Replicate timeout", n, n) := by
  intro n
  induction n with
  | zero =>
    intro i hi _
    exact replicateLoop_exhausted polls i (by omega)
  | succ k ih =>
    intro i hi hall
    have hi30 : i < 30 := by omega
    rw [replicateLoop_step polls i hi30 (hall i le_rfl hi30)]
    rw [ih (i + 1) (by omega) (fun j hj hj30 => hall j (by omega) hj30)]

theorem replicateLoop_succeeded (polls : Nat → HttpResult) (i : Nat) (hi : i < 30)
    (st : Nat) (b : Json) (t : String)
    (hr : polls i = HttpResult.response st (Except.ok b))
    (hst : jsGetStrict b "status" = Except.ok (some (Json.str "succeeded")))
    (hout : jsGet (some b) "output" = some (Json.str t)) (ht : ¬ t = "") :
    replicateLoop polls i =
      (Except.ok (ProviderOutcome.success "replicate" (Json.str t)), 1, 0) := by
  rw [replicateLoop, dif_pos hi, hr]
  simp [hst, isStatus, replicateOutputText, hout, jsToString, ht]

theorem replicateLoop_pending_then_succeeded (polls : Nat → HttpResult)
    (st : Nat) (b : Json) (t : String)
    (hr : polls 29 = HttpResult.response st (Except.ok b))
    (hst : jsGetStrict b "status" = Except.ok (some (Json.str "succeeded")))
    (hout : jsGet (some b) "output" = some (Json.str t)) (ht : ¬ t = "") :
    ∀ (n i : Nat), i + n = 29 →
      (∀ j, i ≤ j → j < 29 → nonTerminalPoll (polls j)) →
      replicateLoop polls i =
        (Except.ok (ProviderOutcome.success "replicate" (Json.str t)), n + 1, n) := by
  intro n
  induction n with
  | zero =>
    intro i hi _
    have : i = 29 := by omega
    subst this
    exact replicateLoop_succeeded polls 29 (by omega) st b t hr hst hout ht
  | succ k ih =>
    intro i hi hall
    have hi29 : i < 29 := by omega
    rw [replicateLoop_step polls i (by omega) (hall i le_rfl hi29)]
    rw [ih (i + 1) (by omega) (fun j hj hj29 => hall j (by omega) hj29)]

theorem replicateLoop_reads_bound (polls : Nat → HttpResult) :
    ∀ (n i : Nat), 30 ≤ i + n → (replicateLoop polls i).2.1 ≤ n := by
  intro n
  induction n with
  | zero =>
    intro i hi
    rw [replicateLoop_exhausted polls i (by omega)]
  | succ k ih =>
    intro i hi
    by_cases hi30 : i < 30
    · rw [replicateLoop, dif_pos hi30]
      rcases polls i with m | ⟨st, body⟩
      · simp
      · rcases body with e | b
        · simp
        · rcases hst : jsGetStrict b "status" with e | stv
          · simp [hst]
          · simp only [hst]
            by_cases h1 : isStatus stv "succeeded" = true
            · simp only [h1, if_true]
              split <;> simp
            · simp only [eq_false_of_ne_true h1, if_false]
              by_cases h2 : isStatus stv "failed" = true
              · simp [h2]
              · simp only [eq_false_of_ne_true h2, if_false]
                by_cases h3 : isStatus stv "canceled" = true
                · simp [h3]
                · simp only [eq_false_of_ne_true h3, if_false]
                  have := ih (i + 1) (by omega)
                  simpa using Nat.add_le_add_right this 1
    · rw [replicateLoop_exhausted polls i hi30]
      exact Nat.zero_le _

theorem tryReplicateBody_reads_bound (submitNet : Json → HttpResult)
    (polls : Nat → HttpResult) (prompt : String) :
    (tryReplicateBody submitNet polls prompt).2.1 ≤ 30 := by
  unfold tryReplicateBody
  rcases submitNet (replicateRequestBody prompt) with m | ⟨st, body⟩
  · simp
  · by_cases hok : httpOk st = true
    · simp only [hok, if_true]
      rcases body with e | data
      · simp
      · by_cases hep : jsFalsyOpt (jsGet (jsGet (some data) "urls") "get") = true
        · simp [hep]
        · simp only [eq_false_of_ne_true hep, if_false]
          exact replicateLoop_reads_bound polls 30 0 (by omega)
    · simp [eq_false_of_ne_true hok]

theorem fallbackLoop_first_success (os : List ProviderOutcome) :
    ∀ (k : Nat) (hk : k < os.length) (p : String) (t : Json),
      (∀ j (hj : j < os.length), j < k → (os.get ⟨j, hj⟩).isFailure = true) →
      os.get ⟨k, hk⟩ = ProviderOutcome.success p t →
      ∀ acc, fallbackLoop os acc = (FallbackResult.success p t, k + 1) := by
  induction os with
  | nil =>
    intro k hk
    exact absurd hk (by simp)
  | cons o rest ih =>
    intro k hk p t hfail hsucc acc
    cases k with
    | zero =>
      simp only [List.get] at hsucc
      subst hsucc
      simp [fallbackLoop]
    | succ k =>
      have h0 := hfail 0 (by simp) (by omega)
      simp only [List.get] at h0
      rcases o with ⟨q, u⟩ | ⟨q, e⟩
      · simp [ProviderOutcome.isFailure] at h0
      · rw [fallbackLoop]
        have hk2 : k < rest.length := by simpa using hk
        have hrest := ih k hk2 p t
          (fun j hj hjk => hfail (j + 1) (by simpa using hj) (by omega))
          (by simpa using hsucc) (acc ++ [⟨q, e⟩])
        simp [hrest]

theorem jsToString_str (s : String) : jsToString (Json.str s) = s := by
  rw [jsToString]

theorem jsonStringify_obj (fs : List (String × Json)) :
    jsonStringify (Json.obj fs) = "\x7b" ++ stringifyObj fs ++ "\x7d" := rfl

theorem jsonStringify_obj_ne_empty (fs : List (String × Json)) :
    ¬ jsonStringify (Json.obj fs) = "" := by
  intro h
  rw [jsonStringify_obj] at h
  have hl := congrArg String.length h
  simp [String.length_append] at hl
  exact absurd hl.1.1 (by decide)

/-- The HuggingFace extraction on an object without a (truthy)
`generated_text` field takes the `JSON.stringify` fallback branch. -/
theorem hfExtract_fallback (fs : List (String × Json))
    (h : lookupField fs "generated_text" = none) :
    hfExtract (Json.obj fs) = Json.str (jsonStringify (Json.obj fs)) := by
  unfold hfExtract
  simp [Json.isArray, Json.typeofObject, jsGet, h, normalizeNull, jsTruthyOpt]

/-- A succeeded status read whose extracted output text is empty ends the
loop with the empty-output error after this single read, before any
delay. -/
theorem replicateLoop_empty_output (polls : Nat → HttpResult) (i : Nat) (hi : i < 30)
    (st : Nat) (b : Json)
    (hr : polls i = HttpResult.response st (Except.ok b))
    (hst : jsGetStrict b "status" = Except.ok (some (Json.str "succeeded")))
    (hout : replicateOutputText (jsGet (some b) "output") = "") :
    replicateLoop polls i = (Except.error "Error: Replicate empty output", 1, 0) := by
  rw [replicateLoop, dif_pos hi, hr]
  simp [hst, isStatus, hout]

/-- Inversion: the OpenAI body only succeeds with a non-empty extracted
text, tagged with its own provider id. -/
theorem tryOpenAIBody_ok_inv (net : Json → HttpResult) (prompt : String)
    (o : ProviderOutcome) (h : tryOpenAIBody net prompt = Except.ok o) :
    ∃ t, o = ProviderOutcome.success "openai" (Json.str t) ∧ ¬ t = "" := by
  unfold tryOpenAIBody at h
  split at h
  · simp at h
  · split at h
    · split at h
      · simp at h
      · split at h
        · split at h
          · simp at h
          · rename_i t heq ht
            injection h with h
            exact ⟨t, h.symm, by simpa using ht⟩
        · simp at h
    · simp at h

theorem tryOpenRouterBody_ok_inv (net : Json → HttpResult) (prompt : String)
    (o : ProviderOutcome) (h : tryOpenRouterBody net prompt = Except.ok o) :
    ∃ t, o = ProviderOutcome.success "openrouter" (Json.str t) ∧ ¬ t = "" := by
  unfold tryOpenRouterBody at h
  split at h
  · simp at h
  · split at h
    · split at h
      · simp at h
      · split at h
        · split at h
          · simp at h
          · rename_i t heq ht
            injection h with h
            exact ⟨t, h.symm, by simpa using ht⟩
        · simp at h
    · simp at h

theorem tryGeminiBody_ok_inv (net : Json → HttpResult) (prompt : String)
    (o : ProviderOutcome) (h : tryGeminiBody net prompt = Except.ok o) :
    ∃ t, o = ProviderOutcome.success "gemini" (Json.str t) ∧ ¬ t = "" := by
  unfold tryGeminiBody at h
  split at h
  · simp at h
  · split at h
    · split at h
      · simp at h
      · split at h
        · split at h
          · simp at h
          · rename_i t heq ht
            injection h with h
            exact ⟨t, h.symm, by simpa using ht⟩
        · simp at h
    · simp at h

/-- Inversion: the HuggingFace body only succeeds with the (truthy)
extracted value. -/
theorem tryHuggingFaceBody_ok_inv (net : Json → HttpResult) (prompt : String)
    (o : ProviderOutcome) (h : tryHuggingFaceBody net prompt = Except.ok o) :
    ∃ v, o = ProviderOutcome.success "huggingface" v ∧ jsTruthy v = true := by
  unfold tryHuggingFaceBody at h
  split at h
  · simp at h
  · split at h
    · split at h
      · simp at h
      · rename_i data heq
        have h2 : (if jsTruthy (hfExtract data) = true then
            Except.ok (ProviderOutcome.success "huggingface" (hfExtract data))
          else (Except.error "Error: HuggingFace empty response" :
            Except String ProviderOutcome)) = Except.ok o := h
        by_cases hv : jsTruthy (hfExtract data) = true
        · rw [if_pos hv] at h2
          injection h2 with h2
          exact ⟨hfExtract data, h2.symm, hv⟩
        · rw [if_neg hv] at h2
          simp at h2
    · simp at h

/-- Inversion: the polling loop only succeeds with a non-empty joined
output text, tagged `replicate`. -/
theorem replicateLoop_ok_inv (polls : Nat → HttpResult) :
    ∀ (n i : Nat), 30 ≤ i + n → ∀ (o : ProviderOutcome),
      (replicateLoop polls i).1 = Except.ok o →
      ∃ t, o = ProviderOutcome.success "replicate" (Json.str t) ∧ ¬ t = "" := by
  intro n
  induction n with
  | zero =>
    intro i hi o h
    rw [replicateLoop_exhausted polls i (by omega)] at h
    simp at h
  | succ k ih =>
    intro i hi o h
    by_cases hi30 : i < 30
    · rw [replicateLoop, dif_pos hi30] at h
      rcases hp : polls i with m | ⟨st, body⟩
      · rw [hp] at h
        simp at h
      · rw [hp] at h
        rcases body with e | b
        · simp at h
        · have h0 : ((match jsGetStrict b "status" with
              | Except.error e => (Except.error e, 1, 0)
              | Except.ok stv =>
                if isStatus stv "succeeded" = true then
                  if (replicateOutputText (jsGet (some b) "output") == "") = true then
                    (Except.error "Error: Replicate empty output", 1, 0)
                  else (Except.ok (ProviderOutcome.success "replicate"
                    (Json.str (replicateOutputText (jsGet (some b) "output")))), 1, 0)
                else if isStatus stv "failed" = true then
                  (Except.error "Error: Replicate failed", 1, 0)
                else if isStatus stv "canceled" = true then
                  (Except.error "Error: Replicate canceled", 1, 0)
                else ((replicateLoop polls (i + 1)).1,
                  (replicateLoop polls (i + 1)).2.1 + 1,
                  (replicateLoop polls (i + 1)).2.2 + 1) :
              Except String ProviderOutcome × Nat × Nat)).1 = Except.ok o := h
          rcases hst : jsGetStrict b "status" with e | stv
          · rw [hst] at h0
            simp at h0
          · rw [hst] at h0
            have h2 : (if isStatus stv "succeeded" = true then
                if (replicateOutputText (jsGet (some b) "output") == "") = true then
                  ((Except.error "Error: Replicate empty output" :
                    Except String ProviderOutcome), (1 : Nat), (0 : Nat))
                else (Except.ok (ProviderOutcome.success "replicate"
                  (Json.str (replicateOutputText (jsGet (some b) "output")))), 1, 0)
              else if isStatus stv "failed" = true then
                (Except.error "Error: Replicate failed", 1, 0)
              else if isStatus stv "canceled" = true then
                (Except.error "Error: Replicate canceled", 1, 0)
              else ((replicateLoop polls (i + 1)).1,
                (replicateLoop polls (i + 1)).2.1 + 1,
                (replicateLoop polls (i + 1)).2.2 + 1)).1 = Except.ok o := h0
            by_cases h1 : isStatus stv "succeeded" = true
            · rw [if_pos h1] at h2
              by_cases ht : (replicateOutputText (jsGet (some b) "output") == "") = true
              · rw [if_pos ht] at h2
                simp at h2
              · rw [if_neg ht] at h2
                have h3 : Except.ok (ProviderOutcome.success "replicate"
                    (Json.str (replicateOutputText (jsGet (some b) "output")))) =
                    Except.ok o := h2
                injection h3 with h3
                exact ⟨_, h3.symm, by simpa using ht⟩
            · rw [if_neg h1] at h2
              by_cases hf : isStatus stv "failed" = true
              · rw [if_pos hf] at h2
                simp at h2
              · rw [if_neg hf] at h2
                by_cases hcn : isStatus stv "canceled" = true
                · rw [if_pos hcn] at h2
                  simp at h2
                · rw [if_neg hcn] at h2
                  have h3 : (replicateLoop polls (i + 1)).1 = Except.ok o := h2
                  exact ih (i + 1) (by omega) o h3
    · rw [replicateLoop_exhausted polls i hi30] at h
      simp at h

theorem tryReplicateBody_ok_inv (submitNet : Json → HttpResult)
    (polls : Nat → HttpResult) (prompt : String) (o : ProviderOutcome)
    (h : (tryReplicateBody submitNet polls prompt).1 = Except.ok o) :
    ∃ t, o = ProviderOutcome.success "replicate" (Json.str t) ∧ ¬ t = "" := by
  unfold tryReplicateBody at h
  split at h
  · simp at h
  · split at h
    · split at h
      · simp at h
      · rename_i data heq
        have h2 : (if jsFalsyOpt (jsGet (jsGet (some data) "urls") "get") = true then
            ((Except.error "Error: Replicate missing status URL" :
              Except String ProviderOutcome), (0 : Nat), (0 : Nat))
          else replicateLoop polls 0).1 = Except.ok o := h
        by_cases hep : jsFalsyOpt (jsGet (jsGet (some data) "urls") "get") = true
        · rw [if_pos hep] at h2
          simp at h2
        · rw [if_neg hep] at h2
          exact replicateLoop_ok_inv polls 30 0 (by omega) o h2
    · simp at h

/-! ## Concrete fixtures used by the witnesses -/

def emptyEnv : EnvMap := fun _ => none

def allKeysEnv : EnvMap := fun _ => some "tok"

/-- A network world on which no call ever succeeds (rejecting fetch). -/
def unreachableNet : NetWorld :=
  ⟨fun _ => HttpResult.netError "TypeError: Failed to fetch",
   fun _ => HttpResult.netError "TypeError: Failed to fetch",
   fun _ => HttpResult.netError "TypeError: Failed to fetch",
   fun _ => HttpResult.netError "TypeError: Failed to fetch",
   fun _ => HttpResult.netError "TypeError: Failed to fetch",
   fun _ => HttpResult.netError "TypeError: Failed to fetch"⟩

def pendingBody : Json := Json.obj [("status", Json.str "starting")]

def pendingPolls : Nat → HttpResult := fun _ => HttpResult.response 200 (Except.ok pendingBody)

def succeededBody : Json :=
  Json.obj [("status", Json.str "succeeded"), ("output", Json.str "X")]

/-- Pending for the first 29 polls, succeeded with output "X" on poll 30. -/
def mixedPolls : Nat → HttpResult := fun i =>
  if i < 29 then HttpResult.response 200 (Except.ok pendingBody)
  else HttpResult.response 200 (Except.ok succeededBody)

def submitOkData : Json :=
  Json.obj [("urls", Json.obj [("get", Json.str "https://api.replicate.com/v1/predictions/p1")])]

def submitOkNet : Json → HttpResult := fun _ => HttpResult.response 201 (Except.ok submitOkData)

/-- Every status read fails with a 503 whose JSON body carries no `status`
field at all — the shape a proxy error produces. -/
def errorBodyPolls : Nat → HttpResult := fun _ =>
  HttpResult.response 503 (Except.ok (Json.obj [("detail", Json.str "upstream unavailable")]))

/-- A succeeded prediction whose output is the empty string. -/
def emptyOutBody : Json :=
  Json.obj [("status", Json.str "succeeded"), ("output", Json.str "")]

def emptyOutPolls : Nat → HttpResult := fun _ =>
  HttpResult.response 200 (Except.ok emptyOutBody)

/-- Succeeded with output "X" on the very first status read. -/
def oneShotPolls : Nat → HttpResult := fun _ =>
  HttpResult.response 200 (Except.ok succeededBody)

/-! ## Claims -/

/-- C1: for every prompt and every assignment of outcomes to the five
adapters, the sequencer iterates the adapters in the fixed order OpenAI,
OpenRouter, Gemini, HuggingFace, Replicate (second conjunct); if the k-th
outcome is the first `Success`, the loop's result equals that outcome —
provider id and text — and exactly k+1 adapters are invoked, so the
adapters after the k-th are never invoked (first conjunct). -/
theorem c1_first_success_short_circuits :
    (∀ (os : List ProviderOutcome) (k : Nat) (hk : k < os.length) (p : String) (t : Json),
        (∀ j (hj : j < os.length), j < k → (os.get ⟨j, hj⟩).isFailure = true) →
        os.get ⟨k, hk⟩ = ProviderOutcome.success p t →
        fallbackLoop os [] = (FallbackResult.success p t, k + 1)) ∧
    ∀ (env : EnvMap) (net : NetWorld) (prompt : String),
      adapterSequence env net prompt =
        [(tryOpenAI env net.openaiNet prompt).1,
         (tryOpenRouter env net.openrouterNet prompt).1,
         (tryGemini env net.geminiNet prompt).1,
         (tryHuggingFace env net.hfNet prompt).1,
         (tryReplicate env net.replicateSubmitNet net.replicatePolls prompt).outcome] :=
  ⟨fun os k hk p t hf hs => fallbackLoop_first_success os k hk p t hf hs [],
   fun _ _ _ => rfl⟩

theorem c1_witness :
    fallbackLoop
      [ProviderOutcome.failure "openai" "boom",
       ProviderOutcome.success "openrouter" (Json.str "hello"),
       ProviderOutcome.failure "gemini" "y",
       ProviderOutcome.failure "huggingface" "z",
       ProviderOutcome.failure "replicate" "w"] [] =
      (FallbackResult.success "openrouter" (Json.str "hello"), 2) :=
  c1_first_success_short_circuits.1 _ 1 (by simp) "openrouter" (Json.str "hello")
    (by
      intro j hj hjk
      have : j = 0 := by omega
      subst this
      rfl)
    rfl

/-- C7: for every provider, if its credential is absent from the
environment, its attempt returns Failure immediately, the reason names the
missing credential, and zero network calls are issued (the second component
of each adapter's result counts its fetches; for Replicate both the
submission call and the status reads are counted). -/
theorem c7_missing_credential (env : EnvMap) (net : NetWorld) (prompt : String) :
    (env "OPENAI_API_KEY" = none →
      tryOpenAI env net.openaiNet prompt =
        (ProviderOutcome.failure "openai" "OPENAI_API_KEY not set", 0)) ∧
    (env "OPENROUTER_API_KEY" = none →
      tryOpenRouter env net.openrouterNet prompt =
        (ProviderOutcome.failure "openrouter" "OPENROUTER_API_KEY not set", 0)) ∧
    (env "GOOGLE_GEMINI_API_KEY" = none →
      tryGemini env net.geminiNet prompt =
        (ProviderOutcome.failure "gemini" "GOOGLE_GEMINI_API_KEY not set", 0)) ∧
    (env "HUGGING_FACE_ACCESS_TOKEN" = none →
      tryHuggingFace env net.hfNet prompt =
        (ProviderOutcome.failure "huggingface" "HUGGING_FACE_ACCESS_TOKEN not set", 0)) ∧
    (env "REPLICATE_API_KEY" = none →
      tryReplicate env net.replicateSubmitNet net.replicatePolls prompt =
        ⟨ProviderOutcome.failure "replicate" "REPLICATE_API_KEY not set", 0, 0, 0⟩) := by
  refine ⟨fun h => ?_, fun h => ?_, fun h => ?_, fun h => ?_, fun h => ?_⟩ <;>
    simp [tryOpenAI, tryOpenRouter, tryGemini, tryHuggingFace, tryReplicate, h, credFalsy]

theorem c7_witness :
    tryOpenAI emptyEnv unreachableNet.openaiNet "p" =
        (ProviderOutcome.failure "openai" "OPENAI_API_KEY not set", 0) ∧
    tryOpenRouter emptyEnv unreachableNet.openrouterNet "p" =
        (ProviderOutcome.failure "openrouter" "OPENROUTER_API_KEY not set", 0) ∧
    tryGemini emptyEnv unreachableNet.geminiNet "p" =
        (ProviderOutcome.failure "gemini" "GOOGLE_GEMINI_API_KEY not set", 0) ∧
    tryHuggingFace emptyEnv unreachableNet.hfNet "p" =
        (ProviderOutcome.failure "huggingface" "HUGGING_FACE_ACCESS_TOKEN not set", 0) ∧
    tryReplicate emptyEnv unreachableNet.replicateSubmitNet unreachableNet.replicatePolls "p" =
        ⟨ProviderOutcome.failure "replicate" "REPLICATE_API_KEY not set", 0, 0, 0⟩ :=
  ⟨(c7_missing_credential emptyEnv unreachableNet "p").1 rfl,
   (c7_missing_credential emptyEnv unreachableNet "p").2.1 rfl,
   (c7_missing_credential emptyEnv unreachableNet "p").2.2.1 rfl,
   (c7_missing_credential emptyEnv unreachableNet "p").2.2.2.1 rfl,
   (c7_missing_credential emptyEnv unreachableNet "p").2.2.2.2 rfl⟩

/-- C9: a request body that is not parseable as JSON makes `req.json()`
throw; the outer catch returns HTTP 500 with
`{ error: "Unexpected error", details: String(error) }` — not the 400
validation response — and no adapter is invoked. -/
theorem c9_unparseable_body_500 (env : EnvMap) (net : NetWorld) (e : String) :
    handle "POST" (Except.error e) env net =
      (⟨500, some (Json.obj [("error", Json.str "Unexpected error"),
        ("details", Json.str e)])⟩, 0) :=
  rfl

/-- C10: in the Replicate polling loop, a status read whose JSON body is a
value (not `null`) whose `status` is none of `succeeded`, `failed`,
`canceled` — the loop never checks `check.ok`, so this includes error
bodies of non-2xx reads — behaves exactly like Pending: the loop continues
at the next index, having consumed one status read and one delay. -/
theorem c10_nonterminal_status_continues (polls : Nat → HttpResult) (i : Nat)
    (st : Nat) (b : Json) (v : Option Json) (hi : i < 30)
    (hr : polls i = HttpResult.response st (Except.ok b))
    (hst : jsGetStrict b "status" = Except.ok v)
    (h1 : isStatus v "succeeded" = false) (h2 : isStatus v "failed" = false)
    (h3 : isStatus v "canceled" = false) :
    replicateLoop polls i =
      ((replicateLoop polls (i + 1)).1, (replicateLoop polls (i + 1)).2.1 + 1,
        (replicateLoop polls (i + 1)).2.2 + 1) :=
  replicateLoop_step polls i hi ⟨st, b, v, hr, hst, h1, h2, h3⟩

/-- C2: for every prompt accepted by the boundary, if all five adapters
return Failure, the handler answers HTTP 502 with body
`{ error: "All providers failed", attempts: [...] }`, where the attempts
array has exactly five entries in the fixed order openai, openrouter,
gemini, huggingface, replicate, each carrying that provider's id and its
own failure reason; all five adapters were invoked. -/
theorem c2_all_failed_502 (env : EnvMap) (net : NetWorld) (prompt : String)
    (e1 e2 e3 e4 e5 : String) (hp : ¬ prompt = "")
    (h1 : (tryOpenAI env net.openaiNet prompt).1 = ProviderOutcome.failure "openai" e1)
    (h2 : (tryOpenRouter env net.openrouterNet prompt).1 =
      ProviderOutcome.failure "openrouter" e2)
    (h3 : (tryGemini env net.geminiNet prompt).1 = ProviderOutcome.failure "gemini" e3)
    (h4 : (tryHuggingFace env net.hfNet prompt).1 =
      ProviderOutcome.failure "huggingface" e4)
    (h5 : (tryReplicate env net.replicateSubmitNet net.replicatePolls prompt).outcome =
      ProviderOutcome.failure "replicate" e5) :
    handle "POST" (Except.ok (Json.obj [("prompt", Json.str prompt)])) env net =
      (⟨502, some (Json.obj [
        ("error", Json.str "All providers failed"),
        ("attempts", Json.arr [
          Json.obj [("provider", Json.str "openai"), ("error", Json.str e1)],
          Json.obj [("provider", Json.str "openrouter"), ("error", Json.str e2)],
          Json.obj [("provider", Json.str "gemini"), ("error", Json.str e3)],
          Json.obj [("provider", Json.str "huggingface"), ("error", Json.str e4)],
          Json.obj [("provider", Json.str "replicate"), ("error", Json.str e5)]])])⟩,
        5) := by
  unfold handle
  simp only [String.reduceBEq, Bool.false_eq_true, if_false]
  have hd : destructurePrompt (Json.obj [("prompt", Json.str prompt)]) =
      Except.ok (some (Json.str prompt)) := rfl
  rw [hd]
  simp [hp, adapterSequence, h1, h2, h3, h4, h5, fallbackLoop, response502, attemptToJson]

theorem c2_witness :
    handle "POST" (Except.ok (Json.obj [("prompt", Json.str "analyze this")])) emptyEnv
      unreachableNet =
      (⟨502, some (Json.obj [
        ("error", Json.str "All providers failed"),
        ("attempts", Json.arr [
          Json.obj [("provider", Json.str "openai"),
            ("error", Json.str "OPENAI_API_KEY not set")],
          Json.obj [("provider", Json.str "openrouter"),
            ("error", Json.str "OPENROUTER_API_KEY not set")],
          Json.obj [("provider", Json.str "gemini"),
            ("error", Json.str "GOOGLE_GEMINI_API_KEY not set")],
          Json.obj [("provider", Json.str "huggingface"),
            ("error", Json.str "HUGGING_FACE_ACCESS_TOKEN not set")],
          Json.obj [("provider", Json.str "replicate"),
            ("error", Json.str "REPLICATE_API_KEY not set")]])])⟩,
        5) :=
  c2_all_failed_502 emptyEnv unreachableNet "analyze this" _ _ _ _ _
    (by decide) rfl rfl rfl rfl rfl

/-- C3: for the Replicate adapter, once the submission succeeded and
yielded a status URL: (1) if every one of the 30 possible status reads is
non-terminal, the adapter returns Failure with reason
"Error: Replicate timeout" after exactly 30 status reads (and 30 delays);
(2) if the first 29 reads are non-terminal and the 30th reports
`succeeded` with a non-empty string output t, the adapter returns Success
with text t after exactly 30 reads; (3) on any input whatsoever the
polling loop never issues more than 30 status reads. -/
theorem c3_replicate_polling_protocol :
    (∀ (env : EnvMap) (submitNet : Json → HttpResult) (polls : Nat → HttpResult)
        (prompt : String) (st : Nat) (data : Json),
        credFalsy (env "REPLICATE_API_KEY") = false →
        submitNet (replicateRequestBody prompt) = HttpResult.response st (Except.ok data) →
        httpOk st = true →
        jsFalsyOpt (jsGet (jsGet (some data) "urls") "get") = false →
        (∀ i, i < 30 → nonTerminalPoll (polls i)) →
        tryReplicate env submitNet polls prompt =
          ⟨ProviderOutcome.failure "replicate" "Error: Replicate timeout", 31, 30, 30⟩) ∧
    (∀ (env : EnvMap) (submitNet : Json → HttpResult) (polls : Nat → HttpResult)
        (prompt : String) (st stp : Nat) (data b : Json) (t : String),
        credFalsy (env "REPLICATE_API_KEY") = false →
        submitNet (replicateRequestBody prompt) = HttpResult.response st (Except.ok data) →
        httpOk st = true →
        jsFalsyOpt (jsGet (jsGet (some data) "urls") "get") = false →
        (∀ i, i < 29 → nonTerminalPoll (polls i)) →
        polls 29 = HttpResult.response stp (Except.ok b) →
        jsGetStrict b "status" = Except.ok (some (Json.str "succeeded")) →
        jsGet (some b) "output" = some (Json.str t) → ¬ t = "" →
        tryReplicate env submitNet polls prompt =
          ⟨ProviderOutcome.success "replicate" (Json.str t), 31, 30, 29⟩) ∧
    (∀ (env : EnvMap) (submitNet : Json → HttpResult) (polls : Nat → HttpResult)
        (prompt : String),
        (tryReplicate env submitNet polls prompt).statusReads ≤ 30) := by
  refine ⟨?_, ?_, ?_⟩
  · intro env submitNet polls prompt st data hc hs hok hurl hall
    have hbody : tryReplicateBody submitNet polls prompt =
        (Except.error "Error: Replicate timeout", 30, 30) := by
      unfold tryReplicateBody
      rw [hs]
      simp only [hok, if_true, hurl, Bool.false_eq_true, if_false]
      exact replicateLoop_all_pending polls 30 0 (by omega) (fun j _ hj => hall j hj)
    unfold tryReplicate
    simp only [hc, Bool.false_eq_true, if_false]
    rw [hbody]
  · intro env submitNet polls prompt st stp data b t hc hs hok hurl hall hr hst hout ht
    have hbody : tryReplicateBody submitNet polls prompt =
        (Except.ok (ProviderOutcome.success "replicate" (Json.str t)), 30, 29) := by
      unfold tryReplicateBody
      rw [hs]
      simp only [hok, if_true, hurl, Bool.false_eq_true, if_false]
      exact replicateLoop_pending_then_succeeded polls stp b t hr hst hout ht 29 0 (by omega)
        (fun j _ hj => hall j hj)
    unfold tryReplicate
    simp only [hc, Bool.false_eq_true, if_false]
    rw [hbody]
  · intro env submitNet polls prompt
    unfold tryReplicate
    by_cases hc : credFalsy (env "REPLICATE_API_KEY") = true
    · simp [hc]
    · simp only [eq_false_of_ne_true hc, Bool.false_eq_true, if_false]
      have hb := tryReplicateBody_reads_bound submitNet polls prompt
      rcases h : tryReplicateBody submitNet polls prompt with ⟨res, p, d⟩
      rw [h] at hb
      rcases res with e | o <;> simpa using hb

theorem c3_witness :
    tryReplicate allKeysEnv submitOkNet pendingPolls "p" =
        ⟨ProviderOutcome.failure "replicate" "Error: Replicate timeout", 31, 30, 30⟩ ∧
    tryReplicate allKeysEnv submitOkNet mixedPolls "p" =
        ⟨ProviderOutcome.success "replicate" (Json.str "X"), 31, 30, 29⟩ ∧
    (tryReplicate allKeysEnv submitOkNet errorBodyPolls "p").statusReads ≤ 30 :=
  ⟨c3_replicate_polling_protocol.1 allKeysEnv submitOkNet pendingPolls "p" 201 submitOkData
      rfl rfl rfl rfl
      (fun i _ => ⟨200, pendingBody, some (Json.str "starting"), rfl, rfl, rfl, rfl, rfl⟩),
   c3_replicate_polling_protocol.2.1 allKeysEnv submitOkNet mixedPolls "p" 201 200 submitOkData
      succeededBody "X" rfl rfl rfl rfl
      (fun i hi => ⟨200, pendingBody, some (Json.str "starting"),
        by simp [mixedPolls, hi, pendingBody], rfl, rfl, rfl, rfl⟩)
      (by simp [mixedPolls]) rfl rfl (by decide),
   c3_replicate_polling_protocol.2.2 allKeysEnv submitOkNet errorBodyPolls "p"⟩

/-- C4: the adapters are total functions into `ProviderOutcome` — the
embedding gives each adapter the type `... → ProviderOutcome × Nat`
directly, with every `throw` of the source modelled as the `Except.error`
of the adapter's body — and the adapter's catch converts every internal
error (network fault, non-2xx status, unparseable body, empty extraction,
polling failure) into a `Failure` carrying the rendered diagnostic, for
each of the five adapters. -/
theorem c4_errors_downgraded_to_failure :
    (∀ (env : EnvMap) (net : Json → HttpResult) (prompt e : String),
        credFalsy (env "OPENAI_API_KEY") = false →
        tryOpenAIBody net prompt = Except.error e →
        tryOpenAI env net prompt = (ProviderOutcome.failure "openai" e, 1)) ∧
    (∀ (env : EnvMap) (net : Json → HttpResult) (prompt e : String),
        credFalsy (env "OPENROUTER_API_KEY") = false →
        tryOpenRouterBody net prompt = Except.error e →
        tryOpenRouter env net prompt = (ProviderOutcome.failure "openrouter" e, 1)) ∧
    (∀ (env : EnvMap) (net : Json → HttpResult) (prompt e : String),
        credFalsy (env "GOOGLE_GEMINI_API_KEY") = false →
        tryGeminiBody net prompt = Except.error e →
        tryGemini env net prompt = (ProviderOutcome.failure "gemini" e, 1)) ∧
    (∀ (env : EnvMap) (net : Json → HttpResult) (prompt e : String),
        credFalsy (env "HUGGING_FACE_ACCESS_TOKEN") = false →
        tryHuggingFaceBody net prompt = Except.error e →
        tryHuggingFace env net prompt = (ProviderOutcome.failure "huggingface" e, 1)) ∧
    (∀ (env : EnvMap) (submitNet : Json → HttpResult) (polls : Nat → HttpResult)
        (prompt e : String),
        credFalsy (env "REPLICATE_API_KEY") = false →
        (tryReplicateBody submitNet polls prompt).1 = Except.error e →
        (tryReplicate env submitNet polls prompt).outcome =
          ProviderOutcome.failure "replicate" e) := by
  refine ⟨?_, ?_, ?_, ?_, ?_⟩
  · intro env net prompt e hc hb
    simp [tryOpenAI, hc, hb]
  · intro env net prompt e hc hb
    simp [tryOpenRouter, hc, hb]
  · intro env net prompt e hc hb
    simp [tryGemini, hc, hb]
  · intro env net prompt e hc hb
    simp [tryHuggingFace, hc, hb]
  · intro env submitNet polls prompt e hc hb
    unfold tryReplicate
    simp only [hc, Bool.false_eq_true, if_false]
    rcases h : tryReplicateBody submitNet polls prompt with ⟨res, p, d⟩
    rw [h] at hb
    simp only at hb
    subst hb
    rfl

theorem c4_witness :
    tryOpenAI allKeysEnv unreachableNet.openaiNet "p" =
        (ProviderOutcome.failure "openai" "TypeError: Failed to fetch", 1) ∧
    tryOpenRouter allKeysEnv unreachableNet.openrouterNet "p" =
        (ProviderOutcome.failure "openrouter" "TypeError: Failed to fetch", 1) ∧
    tryGemini allKeysEnv unreachableNet.geminiNet "p" =
        (ProviderOutcome.failure "gemini" "TypeError: Failed to fetch", 1) ∧
    tryHuggingFace allKeysEnv unreachableNet.hfNet "p" =
        (ProviderOutcome.failure "huggingface" "TypeError: Failed to fetch", 1) ∧
    (tryReplicate allKeysEnv unreachableNet.replicateSubmitNet unreachableNet.replicatePolls
        "p").outcome = ProviderOutcome.failure "replicate" "TypeError: Failed to fetch" :=
  ⟨c4_errors_downgraded_to_failure.1 allKeysEnv unreachableNet.openaiNet "p" _ rfl rfl,
   c4_errors_downgraded_to_failure.2.1 allKeysEnv unreachableNet.openrouterNet "p" _ rfl rfl,
   c4_errors_downgraded_to_failure.2.2.1 allKeysEnv unreachableNet.geminiNet "p" _ rfl rfl,
   c4_errors_downgraded_to_failure.2.2.2.1 allKeysEnv unreachableNet.hfNet "p" _ rfl rfl,
   c4_errors_downgraded_to_failure.2.2.2.2 allKeysEnv unreachableNet.replicateSubmitNet
     unreachableNet.replicatePolls "p" _ rfl rfl⟩

/-- C5 as stated is false on the code: the HuggingFace adapter's
extraction falls back to `JSON.stringify(data)` on an unrecognized
response shape, which is a non-empty string, so the adapter returns
Success — not Failure — on the unrecognized object
`{"unexpected":1}`; and a whitespace-only extracted text passes the
`if (!text)` check, so OpenAI returns Success with text `" "` — not a
Failure — when the content is a single space. -/
theorem c5_counterexample :
    tryHuggingFace (fun _ => some "tok")
      (fun _ => HttpResult.response 200 (Except.ok (Json.obj [("unexpected", Json.num 1)])))
      "p" =
      (ProviderOutcome.success "huggingface" (Json.str "\x7b\"unexpected\":1\x7d"), 1) ∧
    tryOpenAI (fun _ => some "tok")
      (fun _ => HttpResult.response 200 (Except.ok (Json.obj [("choices", Json.arr
        [Json.obj [("message", Json.obj [("content", Json.str " ")])]])])))
      "p" =
      (ProviderOutcome.success "openai" (Json.str " "), 1) :=
  ⟨rfl, rfl⟩

/-- C5 amended: (i) for every adapter, an extraction that yields the empty
string (or an absent field) produces a Failure with an empty-response (for
Replicate: empty-output) reason — for HuggingFace the stringify fallback
makes the extracted text always truthy, so its empty-response branch is
unreachable; (ii) no adapter ever returns Success with empty text; (iii) a
whitespace-only extracted text is treated as non-empty and round-trips
into a Success, the HuggingFace unrecognized-shape fallback returns
Success with `JSON.stringify(data)` rather than Failure, and non-empty
text in each provider's documented shape round-trips identically
(Replicate's array-of-segments output is joined by newline). -/
theorem c5_amended_extraction :
    ((∀ (env : EnvMap) (net : Json → HttpResult) (prompt : String) (data : Json),
        credFalsy (env "OPENAI_API_KEY") = false →
        net (openAIRequestBody prompt) = HttpResult.response 200 (Except.ok data) →
        optTextFalsy (chatCompletionText data) = true →
        tryOpenAI env net prompt =
          (ProviderOutcome.failure "openai" "Error: OpenAI empty response", 1)) ∧
      (∀ (env : EnvMap) (net : Json → HttpResult) (prompt : String) (data : Json),
        credFalsy (env "OPENROUTER_API_KEY") = false →
        net (openRouterRequestBody prompt) = HttpResult.response 200 (Except.ok data) →
        optTextFalsy (chatCompletionText data) = true →
        tryOpenRouter env net prompt =
          (ProviderOutcome.failure "openrouter" "Error: OpenRouter empty response", 1)) ∧
      (∀ (env : EnvMap) (net : Json → HttpResult) (prompt : String) (data : Json),
        credFalsy (env "GOOGLE_GEMINI_API_KEY") = false →
        net (geminiRequestBody prompt) = HttpResult.response 200 (Except.ok data) →
        optTextFalsy (geminiText data) = true →
        tryGemini env net prompt =
          (ProviderOutcome.failure "gemini" "Error: Gemini empty response", 1)) ∧
      (∀ (env : EnvMap) (submitNet : Json → HttpResult) (polls : Nat → HttpResult)
          (prompt : String) (st stp : Nat) (data b : Json),
        credFalsy (env "REPLICATE_API_KEY") = false →
        submitNet (replicateRequestBody prompt) = HttpResult.response st (Except.ok data) →
        httpOk st = true →
        jsFalsyOpt (jsGet (jsGet (some data) "urls") "get") = false →
        polls 0 = HttpResult.response stp (Except.ok b) →
        jsGetStrict b "status" = Except.ok (some (Json.str "succeeded")) →
        replicateOutputText (jsGet (some b) "output") = "" →
        tryReplicate env submitNet polls prompt =
          ⟨ProviderOutcome.failure "replicate" "Error: Replicate empty output",
            2, 1, 0⟩)) ∧
    ((∀ (env : EnvMap) (net : Json → HttpResult) (prompt t : String),
        (tryOpenAI env net prompt).1 = ProviderOutcome.success "openai" (Json.str t) →
        ¬ t = "") ∧
      (∀ (env : EnvMap) (net : Json → HttpResult) (prompt t : String),
        (tryOpenRouter env net prompt).1 =
          ProviderOutcome.success "openrouter" (Json.str t) → ¬ t = "") ∧
      (∀ (env : EnvMap) (net : Json → HttpResult) (prompt t : String),
        (tryGemini env net prompt).1 = ProviderOutcome.success "gemini" (Json.str t) →
        ¬ t = "") ∧
      (∀ (env : EnvMap) (net : Json → HttpResult) (prompt t : String),
        (tryHuggingFace env net prompt).1 =
          ProviderOutcome.success "huggingface" (Json.str t) → ¬ t = "") ∧
      (∀ (env : EnvMap) (submitNet : Json → HttpResult) (polls : Nat → HttpResult)
          (prompt t : String),
        (tryReplicate env submitNet polls prompt).outcome =
          ProviderOutcome.success "replicate" (Json.str t) → ¬ t = "")) ∧
    ((∀ (env : EnvMap) (net : Json → HttpResult) (prompt : String) (data : Json) (t : String),
        credFalsy (env "OPENAI_API_KEY") = false →
        net (openAIRequestBody prompt) = HttpResult.response 200 (Except.ok data) →
        chatCompletionText data = some t → ¬ t = "" →
        tryOpenAI env net prompt = (ProviderOutcome.success "openai" (Json.str t), 1)) ∧
      (∀ (env : EnvMap) (net : Json → HttpResult) (prompt : String) (data : Json) (t : String),
        credFalsy (env "OPENROUTER_API_KEY") = false →
        net (openRouterRequestBody prompt) = HttpResult.response 200 (Except.ok data) →
        chatCompletionText data = some t → ¬ t = "" →
        tryOpenRouter env net prompt =
          (ProviderOutcome.success "openrouter" (Json.str t), 1)) ∧
      (∀ (env : EnvMap) (net : Json → HttpResult) (prompt : String) (data : Json) (t : String),
        credFalsy (env "GOOGLE_GEMINI_API_KEY") = false →
        net (geminiRequestBody prompt) = HttpResult.response 200 (Except.ok data) →
        geminiText data = some t → ¬ t = "" →
        tryGemini env net prompt = (ProviderOutcome.success "gemini" (Json.str t), 1)) ∧
      (∀ (env : EnvMap) (net : Json → HttpResult) (prompt : String) (data : Json) (t : String),
        credFalsy (env "HUGGING_FACE_ACCESS_TOKEN") = false →
        net (hfRequestBody prompt) = HttpResult.response 200 (Except.ok data) →
        hfExtract data = Json.str t → ¬ t = "" →
        tryHuggingFace env net prompt =
          (ProviderOutcome.success "huggingface" (Json.str t), 1)) ∧
      (∀ (env : EnvMap) (net : Json → HttpResult) (prompt : String)
          (fs : List (String × Json)),
        credFalsy (env "HUGGING_FACE_ACCESS_TOKEN") = false →
        net (hfRequestBody prompt) = HttpResult.response 200 (Except.ok (Json.obj fs)) →
        lookupField fs "generated_text" = none →
        tryHuggingFace env net prompt =
          (ProviderOutcome.success "huggingface"
            (Json.str (jsonStringify (Json.obj fs))), 1)) ∧
      (∀ ss : List String,
        replicateOutputText (some (Json.arr (ss.map Json.str))) =
          String.intercalate "\n" ss)) := by
  refine ⟨⟨?_, ?_, ?_, ?_⟩, ⟨?_, ?_, ?_, ?_, ?_⟩, ?_, ?_, ?_, ?_, ?_, ?_⟩
  · intro env net prompt data hc hnet hempty
    simp only [tryOpenAI, hc, Bool.false_eq_true, if_false]
    have hb : tryOpenAIBody net prompt = Except.error "Error: OpenAI empty response" := by
      unfold tryOpenAIBody
      rw [hnet]
      simp only [show httpOk 200 = true from rfl, if_true]
      rcases hx : chatCompletionText data with _ | t
      · simp [hx]
      · rw [hx] at hempty
        simp only [optTextFalsy] at hempty
        simp [hx, hempty]
    rw [hb]
  · intro env net prompt data hc hnet hempty
    simp only [tryOpenRouter, hc, Bool.false_eq_true, if_false]
    have hb : tryOpenRouterBody net prompt =
        Except.error "Error: OpenRouter empty response" := by
      unfold tryOpenRouterBody
      rw [hnet]
      simp only [show httpOk 200 = true from rfl, if_true]
      rcases hx : chatCompletionText data with _ | t
      · simp [hx]
      · rw [hx] at hempty
        simp only [optTextFalsy] at hempty
        simp [hx, hempty]
    rw [hb]
  · intro env net prompt data hc hnet hempty
    simp only [tryGemini, hc, Bool.false_eq_true, if_false]
    have hb : tryGeminiBody net prompt = Except.error "Error: Gemini empty response" := by
      unfold tryGeminiBody
      rw [hnet]
      simp only [show httpOk 200 = true from rfl, if_true]
      rcases hx : geminiText data with _ | t
      · simp [hx]
      · rw [hx] at hempty
        simp only [optTextFalsy] at hempty
        simp [hx, hempty]
    rw [hb]
  · intro env submitNet polls prompt st stp data b hc hs hok hurl hr hst hout
    have hloop := replicateLoop_empty_output polls 0 (by omega) stp b hr hst hout
    have hbody : tryReplicateBody submitNet polls prompt =
        (Except.error "Error: Replicate empty output", 1, 0) := by
      unfold tryReplicateBody
      rw [hs]
      simp only [hok, if_true, hurl, Bool.false_eq_true, if_false]
      exact hloop
    unfold tryReplicate
    simp only [hc, Bool.false_eq_true, if_false]
    rw [hbody]
  · intro env net prompt t h
    unfold tryOpenAI at h
    by_cases hc : credFalsy (env "OPENAI_API_KEY") = true
    · rw [if_pos hc] at h
      simp at h
    · rw [if_neg hc] at h
      rcases hb : tryOpenAIBody net prompt with e | o
      · rw [hb] at h
        simp at h
      · rw [hb] at h
        have h2 : o = ProviderOutcome.success "openai" (Json.str t) := h
        obtain ⟨u, hu, hne⟩ := tryOpenAIBody_ok_inv net prompt o hb
        rw [hu] at h2
        injection h2 with hp harg
        injection harg with harg
        subst harg
        exact hne
  · intro env net prompt t h
    unfold tryOpenRouter at h
    by_cases hc : credFalsy (env "OPENROUTER_API_KEY") = true
    · rw [if_pos hc] at h
      simp at h
    · rw [if_neg hc] at h
      rcases hb : tryOpenRouterBody net prompt with e | o
      · rw [hb] at h
        simp at h
      · rw [hb] at h
        have h2 : o = ProviderOutcome.success "openrouter" (Json.str t) := h
        obtain ⟨u, hu, hne⟩ := tryOpenRouterBody_ok_inv net prompt o hb
        rw [hu] at h2
        injection h2 with hp harg
        injection harg with harg
        subst harg
        exact hne
  · intro env net prompt t h
    unfold tryGemini at h
    by_cases hc : credFalsy (env "GOOGLE_GEMINI_API_KEY") = true
    · rw [if_pos hc] at h
      simp at h
    · rw [if_neg hc] at h
      rcases hb : tryGeminiBody net prompt with e | o
      · rw [hb] at h
        simp at h
      · rw [hb] at h
        have h2 : o = ProviderOutcome.success "gemini" (Json.str t) := h
        obtain ⟨u, hu, hne⟩ := tryGeminiBody_ok_inv net prompt o hb
        rw [hu] at h2
        injection h2 with hp harg
        injection harg with harg
        subst harg
        exact hne
  · intro env net prompt t h
    unfold tryHuggingFace at h
    by_cases hc : credFalsy (env "HUGGING_FACE_ACCESS_TOKEN") = true
    · rw [if_pos hc] at h
      simp at h
    · rw [if_neg hc] at h
      rcases hb : tryHuggingFaceBody net prompt with e | o
      · rw [hb] at h
        simp at h
      · rw [hb] at h
        have h2 : o = ProviderOutcome.success "huggingface" (Json.str t) := h
        obtain ⟨v, hv, htr⟩ := tryHuggingFaceBody_ok_inv net prompt o hb
        rw [hv] at h2
        injection h2 with hp harg
        rw [harg] at htr
        intro ht
        subst ht
        simp [jsTruthy] at htr
  · intro env submitNet polls prompt t h
    unfold tryReplicate at h
    by_cases hc : credFalsy (env "REPLICATE_API_KEY") = true
    · rw [if_pos hc] at h
      simp at h
    · rw [if_neg hc] at h
      rcases hb : tryReplicateBody submitNet polls prompt with ⟨res, p, d⟩
      rw [hb] at h
      rcases res with e | o
      · simp at h
      · have h2 : o = ProviderOutcome.success "replicate" (Json.str t) := h
        have hb1 : (tryReplicateBody submitNet polls prompt).1 = Except.ok o := by
          rw [hb]
        obtain ⟨u, hu, hne⟩ := tryReplicateBody_ok_inv submitNet polls prompt o hb1
        rw [hu] at h2
        injection h2 with hp harg
        injection harg with harg
        subst harg
        exact hne
  · intro env net prompt data t hc hnet hx ht
    simp only [tryOpenAI, hc, Bool.false_eq_true, if_false]
    have hb : tryOpenAIBody net prompt =
        Except.ok (ProviderOutcome.success "openai" (Json.str t)) := by
      unfold tryOpenAIBody
      rw [hnet]
      simp only [show httpOk 200 = true from rfl, if_true]
      simp [hx, beq_eq_false_iff_ne.mpr ht]
    rw [hb]
  · intro env net prompt data t hc hnet hx ht
    simp only [tryOpenRouter, hc, Bool.false_eq_true, if_false]
    have hb : tryOpenRouterBody net prompt =
        Except.ok (ProviderOutcome.success "openrouter" (Json.str t)) := by
      unfold tryOpenRouterBody
      rw [hnet]
      simp only [show httpOk 200 = true from rfl, if_true]
      simp [hx, beq_eq_false_iff_ne.mpr ht]
    rw [hb]
  · intro env net prompt data t hc hnet hx ht
    simp only [tryGemini, hc, Bool.false_eq_true, if_false]
    have hb : tryGeminiBody net prompt =
        Except.ok (ProviderOutcome.success "gemini" (Json.str t)) := by
      unfold tryGeminiBody
      rw [hnet]
      simp only [show httpOk 200 = true from rfl, if_true]
      simp [hx, beq_eq_false_iff_ne.mpr ht]
    rw [hb]
  · intro env net prompt data t hc hnet hx ht
    simp only [tryHuggingFace, hc, Bool.false_eq_true, if_false]
    have hb : tryHuggingFaceBody net prompt =
        Except.ok (ProviderOutcome.success "huggingface" (Json.str t)) := by
      unfold tryHuggingFaceBody
      rw [hnet]
      simp only [show httpOk 200 = true from rfl, if_true]
      simp [hx, jsTruthy, beq_eq_false_iff_ne.mpr ht]
    rw [hb]
  · intro env net prompt fs hc hnet hlk
    simp only [tryHuggingFace, hc, Bool.false_eq_true, if_false]
    have hb : tryHuggingFaceBody net prompt =
        Except.ok (ProviderOutcome.success "huggingface"
          (Json.str (jsonStringify (Json.obj fs)))) := by
      unfold tryHuggingFaceBody
      rw [hnet]
      simp only [show httpOk 200 = true from rfl, if_true]
      simp [hfExtract_fallback fs hlk, jsTruthy,
        beq_eq_false_iff_ne.mpr (jsonStringify_obj_ne_empty fs)]
    rw [hb]
  · intro ss
    have hmap : (ss.map Json.str).map (fun v => cond (Json.isNull v) "" (jsToString v)) = ss := by
      induction ss with
      | nil => rfl
      | cons a rest ih =>
        simp only [List.map]
        rw [ih, jsToString_str]
        rfl
    rw [show replicateOutputText (some (Json.arr (ss.map Json.str))) =
      jsJoin (ss.map Json.str) "\n" from rfl]
    unfold jsJoin
    rw [hmap]

theorem c5_amended_witness :
    tryOpenAI allKeysEnv
        (fun _ => HttpResult.response 200 (Except.ok (Json.obj [("choices", Json.arr
          [Json.obj [("message", Json.obj [("content", Json.str "")])]])]))) "p" =
      (ProviderOutcome.failure "openai" "Error: OpenAI empty response", 1) ∧
    tryOpenRouter allKeysEnv
        (fun _ => HttpResult.response 200 (Except.ok (Json.obj [("choices", Json.arr
          [Json.obj [("message", Json.obj [("content", Json.str "")])]])]))) "p" =
      (ProviderOutcome.failure "openrouter" "Error: OpenRouter empty response", 1) ∧
    tryGemini allKeysEnv
        (fun _ => HttpResult.response 200 (Except.ok (Json.obj []))) "p" =
      (ProviderOutcome.failure "gemini" "Error: Gemini empty response", 1) ∧
    tryReplicate allKeysEnv submitOkNet emptyOutPolls "p" =
      ⟨ProviderOutcome.failure "replicate" "Error: Replicate empty output", 2, 1, 0⟩ ∧
    ((tryOpenAI allKeysEnv
        (fun _ => HttpResult.response 200 (Except.ok (Json.obj [("choices", Json.arr
          [Json.obj [("message", Json.obj [("content", Json.str "report")])]])]))) "p").1 =
        ProviderOutcome.success "openai" (Json.str "report") ∧ ¬ "report" = "") ∧
    ((tryOpenRouter allKeysEnv
        (fun _ => HttpResult.response 200 (Except.ok (Json.obj [("choices", Json.arr
          [Json.obj [("message", Json.obj [("content", Json.str "report")])]])]))) "p").1 =
        ProviderOutcome.success "openrouter" (Json.str "report") ∧ ¬ "report" = "") ∧
    ((tryGemini allKeysEnv
        (fun _ => HttpResult.response 200 (Except.ok (Json.obj [("candidates", Json.arr
          [Json.obj [("content", Json.obj [("parts", Json.arr
            [Json.obj [("text", Json.str "report")]])])]])]))) "p").1 =
        ProviderOutcome.success "gemini" (Json.str "report") ∧ ¬ "report" = "") ∧
    ((tryHuggingFace allKeysEnv
        (fun _ => HttpResult.response 200 (Except.ok (Json.arr
          [Json.obj [("generated_text", Json.str "report")]]))) "p").1 =
        ProviderOutcome.success "huggingface" (Json.str "report") ∧ ¬ "report" = "") ∧
    ((tryReplicate allKeysEnv submitOkNet oneShotPolls "p").outcome =
        ProviderOutcome.success "replicate" (Json.str "X") ∧ ¬ "X" = "") ∧
    tryOpenAI allKeysEnv
        (fun _ => HttpResult.response 200 (Except.ok (Json.obj [("choices", Json.arr
          [Json.obj [("message", Json.obj [("content", Json.str "report")])]])]))) "p" =
      (ProviderOutcome.success "openai" (Json.str "report"), 1) ∧
    tryOpenRouter allKeysEnv
        (fun _ => HttpResult.response 200 (Except.ok (Json.obj [("choices", Json.arr
          [Json.obj [("message", Json.obj [("content", Json.str "report")])]])]))) "p" =
      (ProviderOutcome.success "openrouter" (Json.str "report"), 1) ∧
    tryGemini allKeysEnv
        (fun _ => HttpResult.response 200 (Except.ok (Json.obj [("candidates", Json.arr
          [Json.obj [("content", Json.obj [("parts", Json.arr
            [Json.obj [("text", Json.str "report")]])])]])]))) "p" =
      (ProviderOutcome.success "gemini" (Json.str "report"), 1) ∧
    tryHuggingFace allKeysEnv
        (fun _ => HttpResult.response 200 (Except.ok (Json.arr
          [Json.obj [("generated_text", Json.str "report")]]))) "p" =
      (ProviderOutcome.success "huggingface" (Json.str "report"), 1) ∧
    tryHuggingFace allKeysEnv
        (fun _ => HttpResult.response 200 (Except.ok
          (Json.obj [("detail", Json.str "queue full")]))) "p" =
      (ProviderOutcome.success "huggingface"
        (Json.str "\x7b\"detail\":\"queue full\"\x7d"), 1) ∧
    replicateOutputText (some (Json.arr [Json.str "a", Json.str "b"])) = "a\nb" := by
  have hrun : (tryReplicate allKeysEnv submitOkNet oneShotPolls "p").outcome =
      ProviderOutcome.success "replicate" (Json.str "X") := by
    have hloop := replicateLoop_succeeded oneShotPolls 0 (by omega) 200 succeededBody "X"
      rfl rfl rfl (by decide)
    have hbody : tryReplicateBody submitOkNet oneShotPolls "p" =
        (Except.ok (ProviderOutcome.success "replicate" (Json.str "X")), 1, 0) := by
      unfold tryReplicateBody
      rw [show submitOkNet (replicateRequestBody "p") =
        HttpResult.response 201 (Except.ok submitOkData) from rfl]
      simp only [show httpOk 201 = true from rfl, if_true,
        show jsFalsyOpt (jsGet (jsGet (some submitOkData) "urls") "get") = false from rfl,
        Bool.false_eq_true, if_false]
      exact hloop
    unfold tryReplicate
    simp only [show credFalsy (allKeysEnv "REPLICATE_API_KEY") = false from rfl,
      Bool.false_eq_true, if_false]
    rw [hbody]
  refine ⟨?_, ?_, ?_, ?_, ⟨rfl, ?_⟩, ⟨rfl, ?_⟩, ⟨rfl, ?_⟩, ⟨rfl, ?_⟩, ⟨hrun, ?_⟩,
    ?_, ?_, ?_, ?_, ?_, ?_⟩
  · exact c5_amended_extraction.1.1 allKeysEnv _ "p" _ rfl rfl rfl
  · exact c5_amended_extraction.1.2.1 allKeysEnv _ "p" _ rfl rfl rfl
  · exact c5_amended_extraction.1.2.2.1 allKeysEnv _ "p" (Json.obj []) rfl rfl rfl
  · exact c5_amended_extraction.1.2.2.2 allKeysEnv submitOkNet emptyOutPolls "p" 201 200
      submitOkData emptyOutBody rfl rfl rfl rfl rfl rfl rfl
  · exact c5_amended_extraction.2.1.1 allKeysEnv
      (fun _ => HttpResult.response 200 (Except.ok (Json.obj [("choices", Json.arr
        [Json.obj [("message", Json.obj [("content", Json.str "report")])]])])))
      "p" "report" rfl
  · exact c5_amended_extraction.2.1.2.1 allKeysEnv
      (fun _ => HttpResult.response 200 (Except.ok (Json.obj [("choices", Json.arr
        [Json.obj [("message", Json.obj [("content", Json.str "report")])]])])))
      "p" "report" rfl
  · exact c5_amended_extraction.2.1.2.2.1 allKeysEnv
      (fun _ => HttpResult.response 200 (Except.ok (Json.obj [("candidates", Json.arr
        [Json.obj [("content", Json.obj [("parts", Json.arr
          [Json.obj [("text", Json.str "report")]])])]])])))
      "p" "report" rfl
  · exact c5_amended_extraction.2.1.2.2.2.1 allKeysEnv
      (fun _ => HttpResult.response 200 (Except.ok (Json.arr
        [Json.obj [("generated_text", Json.str "report")]])))
      "p" "report" rfl
  · exact c5_amended_extraction.2.1.2.2.2.2 allKeysEnv submitOkNet oneShotPolls "p" "X" hrun
  · exact c5_amended_extraction.2.2.1 allKeysEnv _ "p" _ "report" rfl rfl rfl (by decide)
  · exact c5_amended_extraction.2.2.2.1 allKeysEnv _ "p" _ "report" rfl rfl rfl (by decide)
  · exact c5_amended_extraction.2.2.2.2.1 allKeysEnv _ "p" _ "report" rfl rfl rfl (by decide)
  · exact c5_amended_extraction.2.2.2.2.2.1 allKeysEnv _ "p" _ "report" rfl rfl rfl (by decide)
  · exact c5_amended_extraction.2.2.2.2.2.2.1 allKeysEnv _ "p"
      [("detail", Json.str "queue full")] rfl rfl rfl
  · exact c5_amended_extraction.2.2.2.2.2.2.2 ["a", "b"]

/-- C6 is false as stated: the Gemini (C) and HuggingFace (D) request
payloads carry no system instruction, no temperature, and no model field
(their model is fixed in the request URL instead); only OpenAI (A) and
OpenRouter (B) send the system instruction and temperature.  Shown at the
concrete prompt "p". -/
theorem c6_counterexample :
    jsGet (some (geminiRequestBody "p")) "temperature" = none ∧
    jsGet (some (geminiRequestBody "p")) "model" = none ∧
    Json.containsStr systemInstruction (geminiRequestBody "p") = false ∧
    jsGet (some (hfRequestBody "p")) "temperature" = none ∧
    jsGet (some (hfRequestBody "p")) "model" = none ∧
    Json.containsStr systemInstruction (hfRequestBody "p") = false :=
  ⟨rfl, rfl, rfl, rfl, rfl, rfl⟩

/-- C6 amended: the two chat-completion adapters A and B build payloads
with the fixed system instruction, a fixed model identifier and
temperature 0.2, while C and D pin their fixed model identifier in the
request URL and send only the prompt (C: one user content; D: `inputs`
plus the `wait_for_model` option) — no system instruction, no
temperature. -/
theorem c6_amended_payloads (prompt : String) :
    jsGet (some (openAIRequestBody prompt)) "model" =
        some (Json.str "gpt-4.1-2025-04-14") ∧
    jsGet (some (openAIRequestBody prompt)) "temperature" = some (Json.num (1 / 5)) ∧
    Json.containsStr systemInstruction (openAIRequestBody prompt) = true ∧
    jsGet (some (openRouterRequestBody prompt)) "model" =
        some (Json.str "openai/gpt-4o-mini") ∧
    jsGet (some (openRouterRequestBody prompt)) "temperature" = some (Json.num (1 / 5)) ∧
    Json.containsStr systemInstruction (openRouterRequestBody prompt) = true ∧
    geminiRequestBody prompt = Json.obj [("contents", Json.arr [Json.obj [
      ("role", Json.str "user"),
      ("parts", Json.arr [Json.obj [("text", Json.str prompt)]])]])] ∧
    jsGet (some (geminiRequestBody prompt)) "temperature" = none ∧
    hfRequestBody prompt = Json.obj [
      ("inputs", Json.str prompt),
      ("options", Json.obj [("wait_for_model", Json.bool true)])] ∧
    jsGet (some (hfRequestBody prompt)) "temperature" = none ∧
    geminiEndpoint "k" =
      "https://generativelanguage.googleapis.com/v1beta/models/gemini-1.5-flash:generateContent?key=k" ∧
    hfEndpoint =
      "https://api-inference.huggingface.co/models/mistralai/Mixtral-8x7B-Instruct-v0.1" :=
  ⟨rfl, rfl, rfl, rfl, rfl, rfl, rfl, rfl, rfl, rfl, rfl, rfl⟩

/-- C8 is false as stated for one shape of body: the JSON body `null`
lacks a prompt field, yet destructuring it throws, so the handler answers
HTTP 500 ("Unexpected error"), not the 400 validation response.  No
adapter is invoked either way. -/
theorem c8_counterexample :
    handle "POST" (Except.ok Json.null) emptyEnv unreachableNet =
      (⟨500, some (Json.obj [("error", Json.str "Unexpected error"),
        ("details", Json.str "TypeError: Cannot destructure property \x27prompt\x27 of \x27(intermediate value)\x27 as it is null.")])⟩,
        0) := rfl

/-- C8 amended: for every request whose JSON body is not `null` and does
not carry a non-empty string `prompt` (missing field, non-string value, or
the empty string), the handler returns HTTP 400 with the
missing-prompt validation error body and invokes no adapter; a `null`
body instead raises in destructuring and yields HTTP 500. -/
theorem c8_amended_validation (env : EnvMap) (net : NetWorld) (bodyJson : Json)
    (hnn : ¬ bodyJson = Json.null)
    (hbad : ∀ s, destructurePrompt bodyJson = Except.ok (some (Json.str s)) → s = "") :
    handle "POST" (Except.ok bodyJson) env net =
      (⟨400, some (Json.obj
        [("error", Json.str "Missing \x27prompt\x27 string in body")])⟩, 0) := by
  unfold handle
  simp only [String.reduceBEq, Bool.false_eq_true, if_false]
  rcases hd : destructurePrompt bodyJson with e | pv
  · exfalso
    cases bodyJson <;> first | exact hnn rfl | simp [destructurePrompt] at hd
  · rcases pv with _ | v
    · rfl
    · rcases v with _ | b | q | s | xs | fs
      · rfl
      · rfl
      · rfl
      · have hs := hbad s hd
        subst hs
        rfl
      · rfl
      · rfl

theorem c8_amended_witness :
    handle "POST" (Except.ok (Json.obj [])) emptyEnv unreachableNet =
      (⟨400, some (Json.obj
        [("error", Json.str "Missing \x27prompt\x27 string in body")])⟩, 0) ∧
    handle "POST" (Except.ok (Json.obj [("prompt", Json.str "")])) emptyEnv unreachableNet =
      (⟨400, some (Json.obj
        [("error", Json.str "Missing \x27prompt\x27 string in body")])⟩, 0) ∧
    handle "POST" (Except.ok (Json.obj [("prompt", Json.num 5)])) emptyEnv unreachableNet =
      (⟨400, some (Json.obj
        [("error", Json.str "Missing \x27prompt\x27 string in body")])⟩, 0) :=
  ⟨c8_amended_validation emptyEnv unreachableNet (Json.obj [])
      (fun h => Json.noConfusion h)
      (fun s h => by simp [destructurePrompt, normalizeNull, lookupField] at h),
   c8_amended_validation emptyEnv unreachableNet (Json.obj [("prompt", Json.str "")])
      (fun h => Json.noConfusion h)
      (fun s h => by
        simp [destructurePrompt, normalizeNull, lookupField] at h
        exact h.symm),
   c8_amended_validation emptyEnv unreachableNet (Json.obj [("prompt", Json.num 5)])
      (fun h => Json.noConfusion h)
      (fun s h => by simp [destructurePrompt, normalizeNull, lookupField] at h)⟩

theorem c10_witness :
    replicateLoop errorBodyPolls 0 =
      ((replicateLoop errorBodyPolls 1).1, (replicateLoop errorBodyPolls 1).2.1 + 1,
        (replicateLoop errorBodyPolls 1).2.2 + 1) :=
  c10_nonterminal_status_continues errorBodyPolls 0 503
    (Json.obj [("detail", Json.str "upstream unavailable")]) none
    (by omega) rfl rfl rfl rfl rfl

end AiReport

